import Mathlib

/-!
Shallow embedding of the risk-scoring engine of `backend/analytics.py`
(classes `AnalyticsEngine` and `RecoveryPredictor`).

Conventions of the embedding:
* dates are modelled as integers (day numbers); `timedelta(days=k)` is
  integer subtraction, so all windows are right-closed integer intervals;
* Python floats are modelled as exact rationals, except where `np.std`
  introduces a square root, in which case values live in `ℝ`;
* SQLAlchemy queries are modelled as list filters over an in-memory
  database value; `order_by(date)` is a stable insertion sort on the date;
* Python truthiness on optional numeric fields (`if log.sleep_hours:`)
  is modelled explicitly: `None` and `0` are both falsy;
* `round(x, 2)` is round-half-to-even at two decimals (`round2`);
* `int(x)` on a nonnegative value is the floor (`pytrunc` handles signs
  the way CPython truncation does);
* the `recommendations` text and the expected-return dates (which depend
  on the wall-clock `date.today()`) are outside every claim considered
  here and are not part of the embedded result records.
-/

namespace SportsMed

open Classical

/-- Python truthiness for an optional numeric field: `None` and `0` are falsy. -/
def qTruthy : Option ℚ → Bool
  | none => false
  | some v => v != 0

/-- Python truthiness for an optional integer (athlete age, day counts). -/
def zTruthy : Option ℤ → Bool
  | none => false
  | some v => v != 0

/-- Python truthiness for an optional string: `None` and `""` are falsy. -/
def sTruthy : Option String → Bool
  | none => false
  | some v => v != ""

/-- `np.mean` over a list of rationals (only ever applied to nonempty lists
by the engine; Lean's division by zero gives `0` on `[]`). -/
def npMeanQ (xs : List ℚ) : ℚ := xs.sum / (xs.length : ℚ)

/-- Population variance, as `np.std(xs)^2`: mean of squared deviations. -/
def npVarQ (xs : List ℚ) : ℚ := npMeanQ (xs.map (fun x => (x - npMeanQ xs) ^ 2))

/-- `np.std` (population standard deviation) of a list of rationals, in `ℝ`. -/
noncomputable def npStdR (xs : List ℚ) : ℝ := Real.sqrt (npVarQ xs)

/-- Python `max` of a nonempty list, with an explicit default for `[]`
(mirrors `max(z_scores) if z_scores else 0`). -/
def listMaxD {α : Type} [Max α] (xs : List α) (dflt : α) : α :=
  match xs with
  | [] => dflt
  | x :: rest => rest.foldl max x

/-- Round-half-to-even of a real number to an integer (CPython `round`). -/
noncomputable def rheInt (y : ℝ) : ℤ :=
  if Int.fract y < 1 / 2 then ⌊y⌋
  else if 1 / 2 < Int.fract y then ⌊y⌋ + 1
  else if Even ⌊y⌋ then ⌊y⌋ else ⌊y⌋ + 1

/-- CPython `round(x, 2)`: round-half-to-even at two decimal places. -/
noncomputable def round2 (x : ℝ) : ℝ := (rheInt (x * 100) : ℝ) / 100

/-- CPython `int(x)`: truncation toward zero. -/
def pytrunc (q : ℚ) : ℤ := if q < 0 then -⌊-q⌋ else ⌊q⌋

/-! ## Data model (`backend/models.py`) — the columns the engine reads -/

/-- Row of `training_loads` (the engine only reads dates and load values). -/
structure TrainingLoad where
  athlete_id : ℤ
  date : ℤ
  training_load : ℚ
deriving DecidableEq

/-- Row of `treatments` (the engine only reads dates and severity). -/
structure Treatment where
  athlete_id : ℤ
  date : ℤ
  severity : String
deriving DecidableEq

/-- Row of `lifestyle_logs`; the scored fields are nullable columns. -/
structure LifestyleLog where
  athlete_id : ℤ
  date : ℤ
  sleep_hours : Option ℚ
  sleep_quality : Option ℚ
  nutrition_score : Option ℚ
  stress_level : Option ℚ
deriving DecidableEq

/-- Row of `injury_history` (the columns the engine reads). -/
structure InjuryRecord where
  id : ℤ
  athlete_id : ℤ
  injury_date : ℤ
  injury_type : String
  body_part : String
  severity : String
deriving DecidableEq

/-- Row of `athletes` (nullable age column). -/
structure Athlete where
  id : ℤ
  age : Option ℤ
deriving DecidableEq

/-- The in-memory database a session's queries run against. -/
structure DB where
  athletes : List Athlete
  training_loads : List TrainingLoad
  treatments : List Treatment
  lifestyle_logs : List LifestyleLog
  injuries : List InjuryRecord

/-- The database with no records at all. -/
def emptyDB : DB := ⟨[], [], [], [], []⟩

/-! ## Query layer -/

/-- Insert a training-load row into a date-sorted list (stable). -/
def sortIns (l : TrainingLoad) : List TrainingLoad → List TrainingLoad
  | [] => [l]
  | x :: xs => if l.date < x.date then l :: x :: xs else x :: sortIns l xs

/-- Stable sort of training-load rows by date (`order_by(date)`). -/
def sortByDate : List TrainingLoad → List TrainingLoad
  | [] => []
  | x :: xs => sortIns x (sortByDate xs)

/-- Date-ordered training-load values of an athlete in `[startD, endD]`:
the query at the head of `calculate_acwr` and friends, then
`[load.training_load for load in loads]`. -/
def loadsFor (db : DB) (aid startD endD : ℤ) : List ℚ :=
  (sortByDate (db.training_loads.filter
      (fun l => decide (l.athlete_id = aid ∧ startD ≤ l.date ∧ l.date ≤ endD)))).map
    (·.training_load)

/-- Treatments of an athlete in `[startD, endD]` (unordered `.all()`). -/
def treatmentsFor (db : DB) (aid startD endD : ℤ) : List Treatment :=
  db.treatments.filter (fun t => decide (t.athlete_id = aid ∧ startD ≤ t.date ∧ t.date ≤ endD))

/-- Lifestyle logs of an athlete in `[startD, endD]` (unordered `.all()`). -/
def lifestyleFor (db : DB) (aid startD endD : ℤ) : List LifestyleLog :=
  db.lifestyle_logs.filter (fun l => decide (l.athlete_id = aid ∧ startD ≤ l.date ∧ l.date ≤ endD))

/-- Injury records of an athlete with injury date in `[startD, endD]`. -/
def injuriesFor (db : DB) (aid startD endD : ℤ) : List InjuryRecord :=
  db.injuries.filter
    (fun i => decide (i.athlete_id = aid ∧ startD ≤ i.injury_date ∧ i.injury_date ≤ endD))

/-- `db.query(Athlete).filter(id == athlete_id).first()`, then `.age if athlete else None`. -/
def athleteAgeOf (db : DB) (aid : ℤ) : Option ℤ :=
  (db.athletes.find? (fun a => decide (a.id = aid))).bind Athlete.age

/-! ## LoadMetrics -/

/-- Core of `AnalyticsEngine.calculate_acwr` on the extracted load values
(acute window 7, guarded by `len(loads) < acute_window`). -/
def acwrOfLoads (xs : List ℚ) : Option (ℚ × ℚ × ℚ) :=
  if xs.length < 7 then none
  else
    let acuteL := xs.drop (xs.length - 7)
    let acute := if acuteL = [] then 0 else npMeanQ acuteL
    let chronic := if xs = [] then 0 else npMeanQ xs
    let acwr := if 0 < chronic then acute / chronic else 0
    some (acute, chronic, acwr)

/-- `AnalyticsEngine.calculate_acwr` with the default windows 7/28:
window `[target_date - (28-1), target_date]`. -/
def calculateAcwr (db : DB) (aid d : ℤ) : Option (ℚ × ℚ × ℚ) :=
  acwrOfLoads (loadsFor db aid (d - 27) d)

/-- Day-over-day absolute percentage changes, skipping a transition whose
prior value is not `> 0` (inner loop of `calculate_load_spike_score`). -/
def changesFrom : ℚ → List ℚ → List ℚ
  | _, [] => []
  | prev, x :: rest =>
      if 0 < prev then |((x - prev) / prev) * 100| :: changesFrom x rest
      else changesFrom x rest

/-- All day-over-day percentage changes of a load sequence. -/
def pctChanges : List ℚ → List ℚ
  | [] => []
  | x :: rest => changesFrom x rest

/-- Core of `AnalyticsEngine.calculate_load_spike_score` on the extracted values. -/
def spikeOfLoads (xs : List ℚ) : ℚ :=
  if xs.length < 3 then 0
  else
    let changes := pctChanges xs
    if changes = [] then 0
    else
      let avgChange := npMeanQ changes
      let maxChange := listMaxD changes 0
      let spikeCount : ℚ := ((changes.filter (fun c => decide (30 < c))).length : ℚ)
      min 100 (avgChange * 2 + maxChange * (1 / 2) + spikeCount * 10)

/-- `AnalyticsEngine.calculate_load_spike_score`, default lookback 14:
window `[target_date - 14, target_date]` (no `- 1` in the source). -/
def calculateLoadSpikeScore (db : DB) (aid d : ℤ) : ℚ :=
  spikeOfLoads (loadsFor db aid (d - 14) d)

/-- Foster training monotony core (`calculate_training_monotony`): mean/std of
the window's loads, `10.0` at zero standard deviation, `None` under 3 samples. -/
noncomputable def monotonyOfLoads (xs : List ℚ) : Option ℝ :=
  if xs.length < 3 then none
  else if npStdR xs = 0 then some 10
  else some (round2 ((npMeanQ xs : ℝ) / npStdR xs))

/-- `AnalyticsEngine.calculate_training_monotony`, default lookback 7:
window `[target_date - (7-1), target_date]`. -/
noncomputable def calculateTrainingMonotony (db : DB) (aid d : ℤ) : Option ℝ :=
  monotonyOfLoads (loadsFor db aid (d - 6) d)

/-- Baseline population for the z-score spike (`calculate_z_score_spike`):
`load_values[:-7] if len > 21 else load_values[:int(len*0.75)]`, falling back
to the full list when that leaves fewer than 3 samples. -/
def baselineLoads (xs : List ℚ) : List ℚ :=
  let b := if 21 < xs.length then xs.take (xs.length - 7) else xs.take (xs.length * 3 / 4)
  if b.length < 3 then xs else b

/-- Core of `AnalyticsEngine.calculate_z_score_spike` on the extracted values:
returns `(current_z_score, max_z_score_7d)`, each rounded to 2 decimals. -/
noncomputable def zScoreOfLoads (xs : List ℚ) : ℝ × ℝ :=
  if xs.length < 7 then (0, 0)
  else
    let base := baselineLoads xs
    let bMean : ℝ := (npMeanQ base : ℝ)
    let bStd : ℝ := npStdR base
    if bStd = 0 then (0, 0)
    else
      let recent := xs.drop (xs.length - 7)
      let zs := recent.map (fun v => ((v : ℝ) - bMean) / bStd)
      (round2 (zs.getLastD 0), round2 (listMaxD zs 0))

/-- `AnalyticsEngine.calculate_z_score_spike`, default lookback 28:
window `[target_date - (28-1), target_date]`. -/
noncomputable def calculateZScoreSpike (db : DB) (aid d : ℤ) : ℝ × ℝ :=
  zScoreOfLoads (loadsFor db aid (d - 27) d)

/-! ## WellnessMetrics -/

/-- Core of `AnalyticsEngine.calculate_recovery_score` on the window's
treatments, with the default 14-day lookback baked into `weeks = 14/7`. -/
def recoveryOfTreatments (ts : List Treatment) : ℚ :=
  let treatmentCount : ℚ := (ts.length : ℚ)
  let weeks : ℚ := 14 / 7
  let perWeek := treatmentCount / weeks
  let frequencyScore :=
    if 2 ≤ perWeek ∧ perWeek ≤ 4 then 100
    else if perWeek < 2 then min 100 (perWeek * 50)
    else max 0 (100 - (perWeek - 4) * 10)
  let severeCount : ℚ :=
    ((ts.filter (fun t => decide (t.severity = "severe" ∨ t.severity = "moderate"))).length : ℚ)
  let severityPenalty := min 40 (severeCount * 10)
  max 0 (frequencyScore - severityPenalty)

/-- `AnalyticsEngine.calculate_recovery_score`, default lookback 14:
window `[target_date - 14, target_date]` (no `- 1` in the source). -/
def calculateRecoveryScore (db : DB) (aid d : ℤ) : ℚ :=
  recoveryOfTreatments (treatmentsFor db aid (d - 14) d)

/-- Per-log accumulation of `calculate_lifestyle_score`: the running
`(log_score, factors)` pair after the four sequential field blocks, with
Python truthiness on each field. -/
def perLogScore (log : LifestyleLog) : ℚ × ℕ :=
  let p0 : ℚ × ℕ := (0, 0)
  let p1 :=
    match log.sleep_hours with
    | some v =>
        if v ≠ 0 then
          (p0.1 + (if 7 ≤ v ∧ v ≤ 9 then 25 else if 6 ≤ v ∧ v ≤ 10 then 15 else 5), p0.2 + 1)
        else p0
    | none => p0
  let p2 :=
    match log.sleep_quality with
    | some v => if v ≠ 0 then (p1.1 + v * (5 / 2), p1.2 + 1) else p1
    | none => p1
  let p3 :=
    match log.nutrition_score with
    | some v => if v ≠ 0 then (p2.1 + v * (5 / 2), p2.2 + 1) else p2
    | none => p2
  match log.stress_level with
  | some v => if v ≠ 0 then (p3.1 + (10 - v + 1) * (5 / 2), p3.2 + 1) else p3
  | none => p3

/-- Core of `AnalyticsEngine.calculate_lifestyle_score` on the window's logs:
neutral 50 with no logs; otherwise the mean of the per-log totals over logs
with at least one contributing factor, or 50 if there are none. -/
def lifestyleOfLogs (logs : List LifestyleLog) : ℚ :=
  if logs = [] then 50
  else
    let scores := logs.filterMap (fun log =>
      let p := perLogScore log
      if 0 < p.2 then some p.1 else none)
    if scores = [] then 50 else npMeanQ scores

/-- `AnalyticsEngine.calculate_lifestyle_score`, default lookback 7:
window `[target_date - 7, target_date]` (no `- 1` in the source). -/
def calculateLifestyleScore (db : DB) (aid d : ℤ) : ℚ :=
  lifestyleOfLogs (lifestyleFor db aid (d - 7) d)

/-- Severity multiplier dictionary of `calculate_injury_history_score`
(`.get(severity, 1)`). -/
def injurySeverityMult (s : String) : ℚ :=
  if s = "minor" then 1
  else if s = "moderate" then 2
  else if s = "severe" then 3
  else if s = "catastrophic" then 4
  else 1

/-- Core of `AnalyticsEngine.calculate_injury_history_score`: each injury in
the 180-day window contributes `20 * recency_factor * severity_multiplier`,
and the total is clamped to 100. -/
def injuryHistoryOfInjuries (d : ℤ) (is : List InjuryRecord) : ℚ :=
  if is = [] then 0
  else
    let score := (is.map (fun i =>
      let daysAgo : ℚ := ((d - i.injury_date : ℤ) : ℚ)
      let recencyFactor := max (3 / 10) (1 - daysAgo / 180)
      20 * recencyFactor * injurySeverityMult i.severity)).sum
    min 100 score

/-- `AnalyticsEngine.calculate_injury_history_score`, default lookback 180:
window `[target_date - 180, target_date]` (no `- 1` in the source). -/
def calculateInjuryHistoryScore (db : DB) (aid d : ℤ) : ℚ :=
  injuryHistoryOfInjuries d (injuriesFor db aid (d - 180) d)

/-! ## RiskModifiers -/

/-- Core of `calculate_sleep_modifier` on the window's logs: average the
truthy `sleep_hours` values and band the average. -/
def sleepModOfLogs (logs : List LifestyleLog) : ℚ :=
  if logs = [] then 1
  else
    let hours := logs.filterMap (fun l =>
      match l.sleep_hours with
      | some v => if v ≠ 0 then some v else none
      | none => none)
    if hours = [] then 1
    else
      let avg := npMeanQ hours
      if avg < 6 then 14 / 10
      else if avg < 7 then 12 / 10
      else if 7 ≤ avg ∧ avg ≤ 9 then 1
      else 11 / 10

/-- `AnalyticsEngine.calculate_sleep_modifier`, default lookback 7:
window `[target_date - (7-1), target_date]`. -/
def calculateSleepModifier (db : DB) (aid d : ℤ) : ℚ :=
  sleepModOfLogs (lifestyleFor db aid (d - 6) d)

/-- Core of `calculate_stress_modifier` on the window's logs. -/
def stressModOfLogs (logs : List LifestyleLog) : ℚ :=
  if logs = [] then 1
  else
    let levels := logs.filterMap (fun l =>
      match l.stress_level with
      | some v => if v ≠ 0 then some v else none
      | none => none)
    if levels = [] then 1
    else
      let avg := npMeanQ levels
      if 8 ≤ avg then 13 / 10
      else if 6 ≤ avg then 115 / 100
      else 1

/-- `AnalyticsEngine.calculate_stress_modifier`, default lookback 7:
window `[target_date - (7-1), target_date]`. -/
def calculateStressModifier (db : DB) (aid d : ℤ) : ℚ :=
  stressModOfLogs (lifestyleFor db aid (d - 6) d)

/-- `AnalyticsEngine.calculate_injury_recency_modifier`: 90-day window,
`days_since` from the most recent injury (the head after a descending sort;
only its date matters, so the maximum injury date is used). -/
def calculateInjuryRecencyModifier (db : DB) (aid d : ℤ) : ℚ :=
  let is := injuriesFor db aid (d - 90) d
  match is with
  | [] => 1
  | i0 :: rest =>
      let mostRecent := (rest.map InjuryRecord.injury_date).foldl max i0.injury_date
      let daysSince := d - mostRecent
      if daysSince < 14 then 18 / 10
      else if daysSince < 30 then 15 / 10
      else if daysSince < 60 then 125 / 100
      else 11 / 10

/-- `AnalyticsEngine.calculate_age_modifier` (with `if not athlete_age:`
Python truthiness: a missing or zero age gives 1.0). -/
def calculateAgeModifier (athlete_age : Option ℤ) : ℚ :=
  match athlete_age with
  | none => 1
  | some a =>
      if a = 0 then 1
      else if a < 25 then 1
      else if a < 30 then 11 / 10
      else if a < 35 then 12 / 10
      else 13 / 10

/-! ## RiskComposer (`calculate_overall_risk`) -/

/-- The ACWR risk bucket of `calculate_overall_risk` (note `if acwr:` —
an unavailable ACWR *and* an ACWR equal to 0 both leave the bucket at 0). -/
def acwrRiskBucket (acwr : Option ℚ) : ℚ :=
  match acwr with
  | none => 0
  | some a =>
      if a ≠ 0 then
        if 3 / 2 < a ∨ a < 8 / 10 then 80
        else if 13 / 10 < a ∨ a < 9 / 10 then 50
        else 20
      else 0

/-- The monotony risk bucket of `calculate_overall_risk` (`if monotony:`
truthiness: an undefined or zero monotony leaves the bucket at 0). -/
noncomputable def monotonyRiskBucket (monotony : Option ℝ) : ℝ :=
  match monotony with
  | none => 0
  | some m =>
      if m ≠ 0 then
        if 2 < m then 60
        else if 3 / 2 < m then 30
        else 10
      else 0

/-- The z-score risk bucket of `calculate_overall_risk`, from `max_z_7d`. -/
noncomputable def zRiskBucket (maxZ7d : ℝ) : ℝ :=
  if 5 / 2 < maxZ7d then 70
  else if 2 < maxZ7d then 50
  else if 3 / 2 < maxZ7d then 25
  else 10

/-- The ACWR value entering the bucket: third component of the ACWR triple,
`None` when the triple is unavailable. -/
def acwrValueOf (db : DB) (aid d : ℤ) : Option ℚ :=
  (calculateAcwr db aid d).map (fun t => t.2.2)

/-- The ACWR risk component used in `base_risk`. -/
def acwrRiskOf (db : DB) (aid d : ℤ) : ℚ :=
  acwrRiskBucket (acwrValueOf db aid d)

/-- The monotony risk component used in `base_risk`. -/
noncomputable def monotonyRiskOf (db : DB) (aid d : ℤ) : ℝ :=
  monotonyRiskBucket (calculateTrainingMonotony db aid d)

/-- The z-score risk component used in `base_risk`. -/
noncomputable def zRiskOf (db : DB) (aid d : ℤ) : ℝ :=
  zRiskBucket (calculateZScoreSpike db aid d).2

/-- `base_risk`: the weighted sum of the seven components. -/
noncomputable def baseRiskOf (db : DB) (aid d : ℤ) : ℝ :=
  (acwrRiskOf db aid d : ℝ) * (25 / 100)
    + monotonyRiskOf db aid d * (15 / 100)
    + zRiskOf db aid d * (15 / 100)
    + (calculateLoadSpikeScore db aid d : ℝ) * (15 / 100)
    + (100 - (calculateRecoveryScore db aid d : ℝ)) * (15 / 100)
    + (100 - (calculateLifestyleScore db aid d : ℝ)) * (10 / 100)
    + (calculateInjuryHistoryScore db aid d : ℝ) * (5 / 100)

/-- The product of the four compound risk modifiers (before rounding). -/
def compoundOf (db : DB) (aid d : ℤ) : ℚ :=
  calculateSleepModifier db aid d * calculateStressModifier db aid d *
    calculateInjuryRecencyModifier db aid d * calculateAgeModifier (athleteAgeOf db aid)

/-- `overall_risk = min(100, base_risk * sleep * stress * recency * age)`. -/
noncomputable def overallRiskValue (db : DB) (aid d : ℤ) : ℝ :=
  min 100 (baseRiskOf db aid d * (compoundOf db aid d : ℝ))

/-- Risk-level classification of `calculate_overall_risk` (thresholds 70/40). -/
noncomputable def classifyRisk (x : ℝ) : String :=
  if 70 ≤ x then "high" else if 40 ≤ x then "medium" else "low"

/-- The fields of the result dict of `calculate_overall_risk` that the claims
are about (`recommendations` and the echoed per-metric fields are omitted). -/
structure RiskResult where
  overall_risk_score : ℝ
  risk_level : String
  compound_multiplier : ℝ

/-- `AnalyticsEngine.calculate_overall_risk`: the composed result. -/
noncomputable def calculateOverallRisk (db : DB) (aid d : ℤ) : RiskResult :=
  { overall_risk_score := round2 (overallRiskValue db aid d)
    risk_level := classifyRisk (overallRiskValue db aid d)
    compound_multiplier := round2 (compoundOf db aid d : ℝ) }

/-! ## RecoveryPredictor -/

/-- A `{min, typical, max}` baseline entry of `RECOVERY_BASELINES` (days). -/
structure RecoveryBaseline where
  bmin : ℕ
  btypical : ℕ
  bmax : ℕ
deriving DecidableEq

/-- `RecoveryPredictor.RECOVERY_BASELINES`, in source order. -/
def RECOVERY_BASELINES : List (String × RecoveryBaseline) :=
  [("muscle_strain_grade1", ⟨7, 10, 14⟩),
   ("muscle_strain_grade2", ⟨14, 21, 28⟩),
   ("muscle_strain_grade3", ⟨28, 42, 90⟩),
   ("ligament_sprain_grade1", ⟨7, 14, 21⟩),
   ("ligament_sprain_grade2", ⟨21, 35, 56⟩),
   ("ligament_sprain_grade3", ⟨90, 180, 365⟩),
   ("tendinopathy", ⟨21, 60, 90⟩),
   ("tendon_rupture", ⟨90, 180, 365⟩),
   ("stress_reaction", ⟨14, 28, 42⟩),
   ("stress_fracture", ⟨42, 84, 120⟩),
   ("bone_fracture", ⟨42, 90, 180⟩),
   ("cartilage_damage", ⟨28, 90, 180⟩),
   ("meniscus_tear", ⟨21, 42, 90⟩),
   ("contusion", ⟨3, 7, 14⟩),
   ("laceration", ⟨7, 14, 21⟩),
   ("other", ⟨7, 21, 42⟩)]

/-- `RecoveryPredictor.SEVERITY_MULTIPLIERS` (`.get` returns `none` off-table). -/
def SEVERITY_MULTIPLIERS : List (String × ℚ) :=
  [("minor", 8 / 10), ("mild", 9 / 10), ("moderate", 1), ("severe", 15 / 10),
   ("catastrophic", 2)]

/-- Lower-case a string (`str.lower()`), via the character list so the
definition reduces on literals. -/
def lowerStr (s : String) : String := ⟨s.data.map Char.toLower⟩

/-- `injury_type.lower().replace(" ", "_")` — the single-character replacement
is a character map. -/
def pyNormalizeStr (s : String) : String :=
  ⟨(lowerStr s).data.map (fun c => if c = ' ' then '_' else c)⟩

/-- Whether `needle` occurs at the head of `hay` (character lists). -/
def charsStartWith : List Char → List Char → Bool
  | [], _ => true
  | _ :: _, [] => false
  | a :: as, b :: bs => a == b && charsStartWith as bs

/-- Whether `needle` occurs anywhere inside `hay` (character lists). -/
def charsContain (needle : List Char) : List Char → Bool
  | [] => needle.isEmpty
  | c :: rest => charsStartWith needle (c :: rest) || charsContain needle rest

/-- Python `needle in hay` on strings. -/
def strContains (hay needle : String) : Bool := charsContain needle.data hay.data

/-- `RecoveryPredictor._normalize_injury_type`: the substring-matching cascade. -/
def normalizeInjuryType (injury_type : String) : String :=
  let il := pyNormalizeStr injury_type
  if (RECOVERY_BASELINES.lookup il).isSome then il
  else if strContains il "strain" then
    if strContains il "grade_3" || strContains il "severe" then "muscle_strain_grade3"
    else if strContains il "grade_2" || strContains il "moderate" then "muscle_strain_grade2"
    else "muscle_strain_grade1"
  else if strContains il "sprain" then
    if strContains il "grade_3" || strContains il "severe" then "ligament_sprain_grade3"
    else if strContains il "grade_2" || strContains il "moderate" then "ligament_sprain_grade2"
    else "ligament_sprain_grade1"
  else if strContains il "tendon" then
    if strContains il "rupture" || strContains il "tear" then "tendon_rupture"
    else "tendinopathy"
  else if strContains il "fracture" then
    if strContains il "stress" then "stress_fracture" else "bone_fracture"
  else if strContains il "contusion" || strContains il "bruise" then "contusion"
  else "other"

/-- The age modifier of `predict_recovery_time` (same bands as
`calculate_age_modifier`; `if athlete_age:` truthiness, reported as the
`age_factor` entry of `modifiers_applied`). -/
def recoveryAgeFactor (athlete_age : Option ℤ) : ℚ :=
  match athlete_age with
  | none => 1
  | some a =>
      if a = 0 then 1
      else if a < 25 then 1
      else if a < 30 then 11 / 10
      else if a < 35 then 12 / 10
      else 13 / 10

/-- The severity factor of `predict_recovery_time`: multiplied in only when
`severity` is truthy and its lower-casing is a key of the table; reported as
`SEVERITY_MULTIPLIERS.get(severity.lower(), 1.0) if severity else 1.0`. -/
def recoverySeverityFactor (severity : Option String) : ℚ :=
  match severity with
  | none => 1
  | some s =>
      if s ≠ "" then (SEVERITY_MULTIPLIERS.lookup (lowerStr s)).getD 1
      else 1

/-- The previous-injury factor of `predict_recovery_time`: note the
`days_since_previous_injury and days_since_previous_injury < 180` guard,
under which a `None` or `0` day count with a previous injury gives 1.3. -/
def recoveryPrevFactor (previous_injury_same_area : Bool)
    (days_since_previous_injury : Option ℤ) : ℚ :=
  if previous_injury_same_area then
    if zTruthy days_since_previous_injury ∧
        (∀ dd, days_since_previous_injury = some dd → dd < 180) then 15 / 10
    else 13 / 10
  else 1

/-- The numeric fields of the `predict_recovery_time` result dict (expected
return dates, which add the day counts to the wall-clock today, are omitted). -/
structure RecoveryPrediction where
  min_recovery_days : ℤ
  typical_recovery_days : ℤ
  max_recovery_days : ℤ
  total_multiplier : ℚ
  age_factor : ℚ
  severity_factor : ℚ
  previous_injury_factor : ℚ
deriving DecidableEq

/-- `RecoveryPredictor.predict_recovery_time`. -/
def predictRecoveryTime (injury_type : String) (severity : Option String)
    (athlete_age : Option ℤ) (previous_injury_same_area : Bool)
    (days_since_previous_injury : Option ℤ) : RecoveryPrediction :=
  let key0 := normalizeInjuryType injury_type
  let key := if (RECOVERY_BASELINES.lookup key0).isNone then "other" else key0
  let baseline := (RECOVERY_BASELINES.lookup key).getD ⟨7, 21, 42⟩
  let ageF := recoveryAgeFactor athlete_age
  let sevF := recoverySeverityFactor severity
  let prevF := recoveryPrevFactor previous_injury_same_area days_since_previous_injury
  let totalModifier := 1 * ageF * sevF * prevF
  { min_recovery_days := pytrunc ((baseline.bmin : ℚ) * totalModifier)
    typical_recovery_days := pytrunc ((baseline.btypical : ℚ) * totalModifier)
    max_recovery_days := pytrunc ((baseline.bmax : ℚ) * totalModifier)
    total_multiplier := totalModifier
    age_factor := ageF
    severity_factor := sevF
    previous_injury_factor := prevF }

/-! ## Concrete inputs used by the claim checks -/

/-- A database holding seven consecutive zero training loads for athlete 1
(days 0..6) and nothing else. -/
def dbZeroLoads : DB :=
  ⟨[], (List.range 7).map (fun i => ⟨1, (i : ℤ), 0⟩), [], [], []⟩

/-- A database holding seven consecutive training loads of 100 for athlete 1
(days 0..6) and nothing else. -/
def dbConstLoads : DB :=
  ⟨[], (List.range 7).map (fun i => ⟨1, (i : ℤ), 100⟩), [], [], []⟩

/-- Exactly 21 distinct load samples, 0..20. -/
def loads21 : List ℚ := (List.range 21).map (fun i => (i : ℚ))

/-- 22 constant load samples. -/
def loads22 : List ℚ := List.replicate 22 1

/-- Four samples of mean 300 with population variance 4 (std 2). -/
def loadsSpread : List ℚ := [298, 298, 302, 302]

/-- Four samples of mean 300 with zero variance. -/
def loadsFlat : List ℚ := [300, 300, 300, 300]

/-- Four samples of mean 4 with population variance 1 (std 1). -/
def loadsLoVar : List ℚ := [3, 3, 5, 5]

/-- Four samples of mean 4 with population variance 9 (std 3). -/
def loadsHiVar : List ℚ := [1, 1, 7, 7]

/-- A database whose only record is one lifestyle log of athlete 1 on day 0
with `sleep_hours = 0` and no other lifestyle fields. -/
def dbZeroSleep : DB := ⟨[], [], [], [⟨1, 0, some 0, none, none, none⟩], []⟩

/-! ## Helper lemmas -/

lemma list_sum_le_mul (xs : List ℚ) (b : ℚ) (h : ∀ x ∈ xs, x ≤ b) :
    xs.sum ≤ (xs.length : ℚ) * b := by
  induction xs with
  | nil => simp
  | cons a t ih =>
      have ha := h a (by simp)
      have ht := ih (fun x hx => h x (by simp [hx]))
      simp only [List.sum_cons, List.length_cons]
      push_cast
      nlinarith

lemma mul_le_list_sum (xs : List ℚ) (b : ℚ) (h : ∀ x ∈ xs, b ≤ x) :
    (xs.length : ℚ) * b ≤ xs.sum := by
  induction xs with
  | nil => simp
  | cons a t ih =>
      have ha := h a (by simp)
      have ht := ih (fun x hx => h x (by simp [hx]))
      simp only [List.sum_cons, List.length_cons]
      push_cast
      nlinarith

lemma npMeanQ_le {xs : List ℚ} {b : ℚ} (hne : xs ≠ []) (h : ∀ x ∈ xs, x ≤ b) :
    npMeanQ xs ≤ b := by
  have hl : 0 < (xs.length : ℚ) := by
    exact_mod_cast List.length_pos.mpr hne
  unfold npMeanQ
  rw [div_le_iff₀ hl]
  have := list_sum_le_mul xs b h
  linarith [this, mul_comm (xs.length : ℚ) b]

lemma le_npMeanQ {xs : List ℚ} {b : ℚ} (hne : xs ≠ []) (h : ∀ x ∈ xs, b ≤ x) :
    b ≤ npMeanQ xs := by
  have hl : 0 < (xs.length : ℚ) := by
    exact_mod_cast List.length_pos.mpr hne
  unfold npMeanQ
  rw [le_div_iff₀ hl]
  have := mul_le_list_sum xs b h
  linarith [this, mul_comm (xs.length : ℚ) b]

lemma list_sum_nonneg {xs : List ℚ} (h : ∀ x ∈ xs, 0 ≤ x) : 0 ≤ xs.sum := by
  induction xs with
  | nil => simp
  | cons a t ih =>
      have := h a (by simp)
      have := ih (fun x hx => h x (by simp [hx]))
      simp only [List.sum_cons]
      linarith

lemma npMeanQ_nonneg {xs : List ℚ} (h : ∀ x ∈ xs, 0 ≤ x) : 0 ≤ npMeanQ xs := by
  unfold npMeanQ
  exact div_nonneg (list_sum_nonneg h) (by positivity)

lemma npVarQ_nonneg (xs : List ℚ) : 0 ≤ npVarQ xs := by
  unfold npVarQ
  apply npMeanQ_nonneg
  intro y hy
  rcases List.mem_map.mp hy with ⟨x, _, rfl⟩
  positivity

lemma npStdR_nonneg (xs : List ℚ) : 0 ≤ npStdR xs := Real.sqrt_nonneg _

lemma npStdR_eq_zero_iff (xs : List ℚ) : npStdR xs = 0 ↔ npVarQ xs = 0 := by
  unfold npStdR
  rw [Real.sqrt_eq_zero']
  constructor
  · intro h
    have h2 : (0 : ℝ) ≤ (npVarQ xs : ℝ) := by exact_mod_cast npVarQ_nonneg xs
    exact_mod_cast le_antisymm h h2
  · intro h
    rw [h]
    norm_num

lemma le_foldl_max {α : Type} [LinearOrder α] (t : List α) (a : α) :
    a ≤ t.foldl max a := by
  induction t generalizing a with
  | nil => exact le_refl a
  | cons h tl ih => exact le_trans (le_max_left a h) (ih (max a h))

lemma listMaxD_nonneg {xs : List ℚ} (h : ∀ x ∈ xs, 0 ≤ x) : 0 ≤ listMaxD xs 0 := by
  cases xs with
  | nil => simp [listMaxD]
  | cons a t => exact le_trans (h a (by simp)) (le_foldl_max t a)

lemma changesFrom_nonneg (p : ℚ) (xs : List ℚ) : ∀ c ∈ changesFrom p xs, 0 ≤ c := by
  induction xs generalizing p with
  | nil => simp [changesFrom]
  | cons x rest ih =>
      intro c hc
      unfold changesFrom at hc
      by_cases hp : 0 < p
      · rw [if_pos hp] at hc
        rcases List.mem_cons.mp hc with h1 | h2
        · rw [h1]; exact abs_nonneg _
        · exact ih x c h2
      · rw [if_neg hp] at hc
        exact ih x c hc

lemma pctChanges_nonneg (xs : List ℚ) : ∀ c ∈ pctChanges xs, 0 ≤ c := by
  cases xs with
  | nil => simp [pctChanges]
  | cons x rest => exact changesFrom_nonneg x rest

lemma rheInt_intCast (n : ℤ) : rheInt (n : ℝ) = n := by
  unfold rheInt
  rw [Int.fract_intCast, Int.floor_intCast]
  norm_num

lemma floor_le_rheInt (y : ℝ) : ⌊y⌋ ≤ rheInt y := by
  unfold rheInt
  split_ifs <;> omega

lemma rheInt_le_floor_add_one (y : ℝ) : rheInt y ≤ ⌊y⌋ + 1 := by
  unfold rheInt
  split_ifs <;> omega

lemma rheInt_mono : Monotone rheInt := by
  intro y z h
  rcases lt_or_le (⌊y⌋ : ℤ) ⌊z⌋ with hf | hf
  · have h1 := rheInt_le_floor_add_one y
    have h2 := floor_le_rheInt z
    omega
  · have hfe : ⌊y⌋ = ⌊z⌋ := le_antisymm (Int.floor_le_floor h) hf
    have hfr : Int.fract y ≤ Int.fract z := by
      unfold Int.fract
      rw [hfe]
      linarith
    unfold rheInt
    rw [hfe]
    split_ifs <;> first | omega | (exfalso; linarith)

lemma round2_mono {x y : ℝ} (h : x ≤ y) : round2 x ≤ round2 y := by
  unfold round2
  have := rheInt_mono (by linarith : x * 100 ≤ y * 100)
  have hc : ((rheInt (x * 100) : ℝ)) ≤ ((rheInt (y * 100) : ℝ)) := by exact_mod_cast this
  linarith

lemma round2_intCast (n : ℤ) : round2 (n : ℝ) = n := by
  unfold round2
  rw [show ((n : ℝ) * 100) = ((n * 100 : ℤ) : ℝ) by push_cast; ring, rheInt_intCast]
  push_cast
  ring

lemma round2_div100 (n : ℤ) : round2 ((n : ℝ) / 100) = (n : ℝ) / 100 := by
  unfold round2
  rw [show ((n : ℝ) / 100 * 100) = ((n : ℤ) : ℝ) by ring, rheInt_intCast]

lemma pytrunc_mono {a b : ℚ} (h : a ≤ b) : pytrunc a ≤ pytrunc b := by
  unfold pytrunc
  split_ifs with ha hb hb
  · have : ⌊-b⌋ ≤ ⌊-a⌋ := Int.floor_le_floor (by linarith)
    omega
  · have h1 : 0 ≤ ⌊-a⌋ := Int.le_floor.mpr (by exact_mod_cast (by linarith : (0:ℚ) ≤ -a))
    have h2 : 0 ≤ ⌊b⌋ := Int.le_floor.mpr (by exact_mod_cast not_lt.mp hb)
    omega
  · linarith
  · exact Int.floor_le_floor h

/-! ## Facts about the recovery predictor -/

lemma baseline_entry_sound (s : String) :
    ((RECOVERY_BASELINES.lookup s).getD ⟨7, 21, 42⟩).bmin ≤
        ((RECOVERY_BASELINES.lookup s).getD ⟨7, 21, 42⟩).btypical ∧
      ((RECOVERY_BASELINES.lookup s).getD ⟨7, 21, 42⟩).btypical ≤
        ((RECOVERY_BASELINES.lookup s).getD ⟨7, 21, 42⟩).bmax := by
  unfold RECOVERY_BASELINES
  simp only [List.lookup]
  repeat' split
  all_goals decide

lemma sev_lookup_nonneg (s : String) : 0 ≤ (SEVERITY_MULTIPLIERS.lookup s).getD 1 := by
  unfold SEVERITY_MULTIPLIERS
  simp only [List.lookup]
  repeat' split
  all_goals norm_num

lemma recoveryAgeFactor_nonneg (a : Option ℤ) : 0 ≤ recoveryAgeFactor a := by
  cases a with
  | none => simp [recoveryAgeFactor]
  | some v =>
      simp only [recoveryAgeFactor]
      split_ifs <;> norm_num

lemma recoverySeverityFactor_nonneg (s : Option String) : 0 ≤ recoverySeverityFactor s := by
  cases s with
  | none => simp [recoverySeverityFactor]
  | some v =>
      simp only [recoverySeverityFactor]
      split_ifs
      · exact sev_lookup_nonneg (lowerStr v)
      · norm_num

lemma recoveryPrevFactor_nonneg (p : Bool) (days : Option ℤ) :
    0 ≤ recoveryPrevFactor p days := by
  unfold recoveryPrevFactor
  split_ifs <;> norm_num

lemma recoveryTotal_nonneg (sev : Option String) (age : Option ℤ) (p : Bool)
    (days : Option ℤ) :
    0 ≤ (1 : ℚ) * recoveryAgeFactor age * recoverySeverityFactor sev *
      recoveryPrevFactor p days := by
  have h1 := recoveryAgeFactor_nonneg age
  have h2 := recoverySeverityFactor_nonneg sev
  have h3 := recoveryPrevFactor_nonneg p days
  positivity

lemma recoveryAgeFactor_mono {a b : ℤ} (h : a ≤ b) :
    recoveryAgeFactor (some a) ≤ recoveryAgeFactor (some b) := by
  simp only [recoveryAgeFactor]
  split_ifs <;> try norm_num
  all_goals omega

lemma predict_mono_in_total (it : String) {sev1 sev2 : Option String} {age1 age2 : Option ℤ}
    {prev1 prev2 : Bool} {days1 days2 : Option ℤ}
    (h : (1 : ℚ) * recoveryAgeFactor age1 * recoverySeverityFactor sev1 *
          recoveryPrevFactor prev1 days1 ≤
        1 * recoveryAgeFactor age2 * recoverySeverityFactor sev2 *
          recoveryPrevFactor prev2 days2) :
    (predictRecoveryTime it sev1 age1 prev1 days1).min_recovery_days ≤
        (predictRecoveryTime it sev2 age2 prev2 days2).min_recovery_days ∧
      (predictRecoveryTime it sev1 age1 prev1 days1).typical_recovery_days ≤
        (predictRecoveryTime it sev2 age2 prev2 days2).typical_recovery_days ∧
      (predictRecoveryTime it sev1 age1 prev1 days1).max_recovery_days ≤
        (predictRecoveryTime it sev2 age2 prev2 days2).max_recovery_days := by
  simp only [predictRecoveryTime]
  refine ⟨pytrunc_mono ?_, pytrunc_mono ?_, pytrunc_mono ?_⟩ <;>
    exact mul_le_mul_of_nonneg_left h (by positivity)

lemma severity_factor_values :
    recoverySeverityFactor (some "minor") = 8 / 10 ∧
    recoverySeverityFactor (some "mild") = 9 / 10 ∧
    recoverySeverityFactor (some "moderate") = 1 ∧
    recoverySeverityFactor (some "severe") = 15 / 10 ∧
    recoverySeverityFactor (some "catastrophic") = 2 := by
  refine ⟨?_, ?_, ?_, ?_, ?_⟩
  · simp only [recoverySeverityFactor]
    rw [if_pos (by decide), show lowerStr "minor" = "minor" by decide]
    rfl
  · simp only [recoverySeverityFactor]
    rw [if_pos (by decide), show lowerStr "mild" = "mild" by decide]
    rfl
  · simp only [recoverySeverityFactor]
    rw [if_pos (by decide), show lowerStr "moderate" = "moderate" by decide]
    rfl
  · simp only [recoverySeverityFactor]
    rw [if_pos (by decide), show lowerStr "severe" = "severe" by decide]
    rfl
  · simp only [recoverySeverityFactor]
    rw [if_pos (by decide), show lowerStr "catastrophic" = "catastrophic" by decide]
    rfl

/-- C6: on injury type "Grade 2 Hamstring Strain", severity "moderate", age 32 and
no prior same-body-part injury, `predict_recovery_time` normalizes the type to
category `muscle_strain_grade2` with baseline days {14, 21, 28}, applies age
modifier 1.2, severity modifier 1.0 and previous-injury modifier 1.0 (total 1.2),
and predicts exactly 16/25/33 recovery days. -/
theorem c6_grade2_hamstring_example :
    normalizeInjuryType "Grade 2 Hamstring Strain" = "muscle_strain_grade2" ∧
    RECOVERY_BASELINES.lookup "muscle_strain_grade2" = some ⟨14, 21, 28⟩ ∧
    predictRecoveryTime "Grade 2 Hamstring Strain" (some "moderate") (some 32) false none =
      ⟨16, 25, 33, 12 / 10, 12 / 10, 1, 1⟩ := by
  have h1 : normalizeInjuryType "Grade 2 Hamstring Strain" = "muscle_strain_grade2" := by decide
  have h3 : RECOVERY_BASELINES.lookup "muscle_strain_grade2" = some ⟨14, 21, 28⟩ := by decide
  have hA : recoveryAgeFactor (some 32) = 12 / 10 := by norm_num [recoveryAgeFactor]
  have hS : recoverySeverityFactor (some "moderate") = 1 := severity_factor_values.2.2.1
  have hP : recoveryPrevFactor false none = 1 := by simp [recoveryPrevFactor]
  refine ⟨h1, h3, ?_⟩
  simp only [predictRecoveryTime, h1, h3, hA, hS, hP, Option.isNone_some, Bool.false_eq_true,
    if_false, Option.getD_some]
  norm_num [pytrunc]

/-- C8 counterexample: with a previous same-body-part injury and
`days_since_previous_injury = 0` (a value inside the claimed `[0, 180)` band),
the applied previous-injury modifier is 1.3, not the claimed 1.5 — Python's
`if days_since_previous_injury and days_since_previous_injury < 180` treats a
day count of 0 as absent. -/
theorem c8_counterexample :
    (predictRecoveryTime "bruise" none none true (some 0)).previous_injury_factor = 13 / 10 ∧
      ¬ (predictRecoveryTime "bruise" none none true
          (some 0)).previous_injury_factor = 15 / 10 := by
  have hp : recoveryPrevFactor true (some 0) = 13 / 10 := by
    simp [recoveryPrevFactor, zTruthy]
  constructor
  · simp only [predictRecoveryTime, hp]
  · simp only [predictRecoveryTime, hp]
    norm_num

/-- C8 (amended): the previous-injury factor multiplied into `total_modifier`
is 1.5 when a prior same-body-part injury exists with a *nonzero* day count
below 180, and 1.3 when a prior injury exists but the day count is absent,
zero, or at least 180; it is 1.0 with no prior injury. The total multiplier is
always the product of the reported age, severity and previous-injury factors. -/
theorem c8_prev_injury_factor (it : String) (sev : Option String) (age : Option ℤ)
    (prev : Bool) (days : Option ℤ) :
    (prev = true →
      (∀ dd : ℤ, days = some dd → dd ≠ 0 → dd < 180 →
        (predictRecoveryTime it sev age prev days).previous_injury_factor = 15 / 10) ∧
      ((days = none ∨ days = some 0 ∨ ∃ dd : ℤ, days = some dd ∧ 180 ≤ dd) →
        (predictRecoveryTime it sev age prev days).previous_injury_factor = 13 / 10)) ∧
    (prev = false → (predictRecoveryTime it sev age prev days).previous_injury_factor = 1) ∧
    (predictRecoveryTime it sev age prev days).total_multiplier =
      (predictRecoveryTime it sev age prev days).age_factor *
        (predictRecoveryTime it sev age prev days).severity_factor *
        (predictRecoveryTime it sev age prev days).previous_injury_factor := by
  refine ⟨?_, ?_, ?_⟩
  · intro hp
    subst hp
    constructor
    · intro dd hdd hne hlt
      subst hdd
      simp only [predictRecoveryTime, recoveryPrevFactor, if_true]
      rw [if_pos]
      constructor
      · simp [zTruthy, hne]
      · intro x hx
        injection hx with hx
        omega
    · rintro (hd | hd | ⟨dd, hdd, hge⟩)
      · subst hd
        simp [predictRecoveryTime, recoveryPrevFactor, zTruthy]
      · subst hd
        simp [predictRecoveryTime, recoveryPrevFactor, zTruthy]
      · subst hdd
        simp only [predictRecoveryTime, recoveryPrevFactor, if_true]
        rw [if_neg]
        intro hcon
        have := hcon.2 dd rfl
        omega
  · intro hp
    subst hp
    simp [predictRecoveryTime, recoveryPrevFactor]
  · simp only [predictRecoveryTime]
    ring

/-- Witness for the amended C8 at concrete inputs: a 30-day-old prior injury
gives factor 1.5, and no prior injury gives factor 1.0. -/
theorem c8_prev_injury_factor_witness :
    (predictRecoveryTime "bruise" none none true (some 30)).previous_injury_factor = 15 / 10 ∧
      (predictRecoveryTime "bruise" none none false none).previous_injury_factor = 1 :=
  ⟨((c8_prev_injury_factor "bruise" none none true (some 30)).1 rfl).1 30 rfl
      (by decide) (by decide),
    (c8_prev_injury_factor "bruise" none none false none).2.1 rfl⟩

/-- C7: every recovery prediction satisfies `min ≤ typical ≤ max`; the named
severities are ordered minor ≤ mild ≤ moderate ≤ severe ≤ catastrophic by their
multipliers, and replacing the severity by one with a higher multiplier, or the
athlete age by a higher age, never decreases any of the three predicted day
counts (integer truncation included). -/
theorem c7_prediction_monotonicity :
    (∀ (it : String) (sev : Option String) (age : Option ℤ) (prev : Bool)
        (days : Option ℤ),
      (predictRecoveryTime it sev age prev days).min_recovery_days ≤
          (predictRecoveryTime it sev age prev days).typical_recovery_days ∧
        (predictRecoveryTime it sev age prev days).typical_recovery_days ≤
          (predictRecoveryTime it sev age prev days).max_recovery_days) ∧
    (recoverySeverityFactor (some "minor") ≤ recoverySeverityFactor (some "mild") ∧
      recoverySeverityFactor (some "mild") ≤ recoverySeverityFactor (some "moderate") ∧
      recoverySeverityFactor (some "moderate") ≤ recoverySeverityFactor (some "severe") ∧
      recoverySeverityFactor (some "severe") ≤ recoverySeverityFactor (some "catastrophic")) ∧
    (∀ (it : String) (age : Option ℤ) (prev : Bool) (days : Option ℤ)
        (sev1 sev2 : Option String),
      recoverySeverityFactor sev1 ≤ recoverySeverityFactor sev2 →
        (predictRecoveryTime it sev1 age prev days).min_recovery_days ≤
            (predictRecoveryTime it sev2 age prev days).min_recovery_days ∧
          (predictRecoveryTime it sev1 age prev days).typical_recovery_days ≤
            (predictRecoveryTime it sev2 age prev days).typical_recovery_days ∧
          (predictRecoveryTime it sev1 age prev days).max_recovery_days ≤
            (predictRecoveryTime it sev2 age prev days).max_recovery_days) ∧
    (∀ (it : String) (sev : Option String) (prev : Bool) (days : Option ℤ) (a1 a2 : ℤ),
      a1 ≤ a2 →
        (predictRecoveryTime it sev (some a1) prev days).min_recovery_days ≤
            (predictRecoveryTime it sev (some a2) prev days).min_recovery_days ∧
          (predictRecoveryTime it sev (some a1) prev days).typical_recovery_days ≤
            (predictRecoveryTime it sev (some a2) prev days).typical_recovery_days ∧
          (predictRecoveryTime it sev (some a1) prev days).max_recovery_days ≤
            (predictRecoveryTime it sev (some a2) prev days).max_recovery_days) := by
  refine ⟨?_, ?_, ?_, ?_⟩
  · intro it sev age prev days
    have ht := recoveryTotal_nonneg sev age prev days
    simp only [predictRecoveryTime]
    constructor
    · apply pytrunc_mono
      apply mul_le_mul_of_nonneg_right _ ht
      exact_mod_cast Nat.cast_le.mpr (baseline_entry_sound _).1
    · apply pytrunc_mono
      apply mul_le_mul_of_nonneg_right _ ht
      exact_mod_cast Nat.cast_le.mpr (baseline_entry_sound _).2
  · obtain ⟨e1, e2, e3, e4, e5⟩ := severity_factor_values
    rw [e1, e2, e3, e4, e5]
    norm_num
  · intro it age prev days sev1 sev2 h
    apply predict_mono_in_total it
    exact mul_le_mul_of_nonneg_right
      (mul_le_mul_of_nonneg_left h
        (by have := recoveryAgeFactor_nonneg age; positivity))
      (recoveryPrevFactor_nonneg prev days)
  · intro it sev prev days a1 a2 h
    apply predict_mono_in_total it
    apply mul_le_mul_of_nonneg_right _ (recoveryPrevFactor_nonneg prev days)
    apply mul_le_mul_of_nonneg_right _ (recoverySeverityFactor_nonneg sev)
    apply mul_le_mul_of_nonneg_left (recoveryAgeFactor_mono h)
    norm_num

/-- Witness for C7 at concrete inputs: ordering of the three day counts for a
concrete prediction, and monotonicity when moving minor → severe and age
20 → 40 on a concrete injury. -/
theorem c7_prediction_monotonicity_witness :
    ((predictRecoveryTime "knee sprain" (some "minor") (some 20) false none).min_recovery_days ≤
        (predictRecoveryTime "knee sprain" (some "minor") (some 20)
          false none).typical_recovery_days) ∧
      ((predictRecoveryTime "knee sprain" (some "minor") (some 20) false
            none).min_recovery_days ≤
        (predictRecoveryTime "knee sprain" (some "severe") (some 20) false
          none).min_recovery_days) ∧
      ((predictRecoveryTime "knee sprain" (some "minor") (some 20) false
            none).max_recovery_days ≤
        (predictRecoveryTime "knee sprain" (some "minor") (some 40) false
          none).max_recovery_days) := by
  have h := c7_prediction_monotonicity
  refine ⟨(h.1 "knee sprain" (some "minor") (some 20) false none).1, ?_, ?_⟩
  · refine (h.2.2.1 "knee sprain" (some 20) false none (some "minor") (some "severe") ?_).1
    obtain ⟨e1, e2, e3, e4, e5⟩ := severity_factor_values
    rw [e1, e4]
    norm_num
  · exact (h.2.2.2 "knee sprain" (some "minor") false none 20 40 (by norm_num)).2.2

/-! ## C1: the ACWR risk bucket -/

/-- Unfolding of `acwrOfLoads` in the sufficient-samples case. -/
lemma acwrOfLoads_of_length {xs : List ℚ} (h : ¬ xs.length < 7) :
    acwrOfLoads xs =
      some (if xs.drop (xs.length - 7) = [] then 0 else npMeanQ (xs.drop (xs.length - 7)),
        if xs = [] then 0 else npMeanQ xs,
        if 0 < (if xs = [] then 0 else npMeanQ xs) then
          (if xs.drop (xs.length - 7) = [] then 0 else npMeanQ (xs.drop (xs.length - 7))) /
            (if xs = [] then 0 else npMeanQ xs)
        else 0) := by
  rw [acwrOfLoads, if_neg h]

lemma dbZeroLoads_loads : loadsFor dbZeroLoads 1 (6 - 27) 6 = [0, 0, 0, 0, 0, 0, 0] := by rfl

lemma dbConstLoads_loads :
    loadsFor dbConstLoads 1 (6 - 27) 6 = [100, 100, 100, 100, 100, 100, 100] := by rfl

lemma acwr_of_zero_loads : calculateAcwr dbZeroLoads 1 6 = some (0, 0, 0) := by
  rw [calculateAcwr, dbZeroLoads_loads, acwrOfLoads_of_length (by norm_num)]
  norm_num [npMeanQ]

lemma acwr_of_const_loads : calculateAcwr dbConstLoads 1 6 = some (100, 100, 1) := by
  rw [calculateAcwr, dbConstLoads_loads, acwrOfLoads_of_length (by norm_num)]
  norm_num [npMeanQ, List.cons_ne_nil]

/-- C1 counterexample: seven all-zero training loads make the ACWR triple
*available* with `acwr = 0` (zero chronic load), yet the ACWR risk bucket used
in `base_risk` is 0, not the claimed 80 — `if acwr:` treats the available 0.0
like a missing value, so an available ACWR of 0 never reaches the `< 0.8` band. -/
theorem c1_counterexample :
    calculateAcwr dbZeroLoads 1 6 = some (0, 0, 0) ∧
      acwrRiskOf dbZeroLoads 1 6 = 0 ∧ ¬ (acwrRiskOf dbZeroLoads 1 6 = 80) := by
  have hB : acwrRiskOf dbZeroLoads 1 6 = 0 := by
    simp [acwrRiskOf, acwrValueOf, acwr_of_zero_loads, acwrRiskBucket]
  exact ⟨acwr_of_zero_loads, hB, by rw [hB]; norm_num⟩

/-- C1 (amended): the ACWR bucket used in `base_risk` is 80 for a *nonzero*
available ACWR above 1.5 or below 0.8, 50 for a nonzero available ACWR above
1.3 or below 0.9, 20 for other nonzero available values, and 0 both when the
ACWR is unavailable (fewer samples than the acute window) *and* when the
available ACWR equals 0 — in particular when the chronic load is 0, where the
ACWR is defined to be 0, the bucket is 0 rather than 80. -/
theorem c1_acwr_bucket (db : DB) (aid d : ℤ) :
    (calculateAcwr db aid d = none ↔ (loadsFor db aid (d - 27) d).length < 7) ∧
    (∀ ac ch a : ℚ, calculateAcwr db aid d = some (ac, ch, a) → ch = 0 → a = 0) ∧
    (∀ ac ch : ℚ, calculateAcwr db aid d = some (ac, ch, 0) → acwrRiskOf db aid d = 0) ∧
    (calculateAcwr db aid d = none → acwrRiskOf db aid d = 0) ∧
    (∀ ac ch a : ℚ, calculateAcwr db aid d = some (ac, ch, a) → a ≠ 0 →
      acwrRiskOf db aid d =
        if 3 / 2 < a ∨ a < 8 / 10 then 80
        else if 13 / 10 < a ∨ a < 9 / 10 then 50
        else 20) := by
  refine ⟨?_, ?_, ?_, ?_, ?_⟩
  · rw [calculateAcwr, acwrOfLoads]
    by_cases h : (loadsFor db aid (d - 27) d).length < 7
    · simp [h]
    · simp [h]
  · intro ac ch a hsome hch
    by_cases h : (loadsFor db aid (d - 27) d).length < 7
    · rw [calculateAcwr, acwrOfLoads, if_pos h] at hsome
      exact absurd hsome (by simp)
    · rw [calculateAcwr, acwrOfLoads_of_length h] at hsome
      simp only [Option.some_inj, Prod.mk.injEq] at hsome
      obtain ⟨-, hch', ha⟩ := hsome
      subst hch'
      subst ha
      rw [if_neg]
      rw [hch]
      norm_num
  · intro ac ch hsome
    simp [acwrRiskOf, acwrValueOf, hsome, acwrRiskBucket]
  · intro hnone
    simp [acwrRiskOf, acwrValueOf, hnone, acwrRiskBucket]
  · intro ac ch a hsome ha
    simp [acwrRiskOf, acwrValueOf, hsome, acwrRiskBucket, ha]

/-- Witness for the amended C1: seven loads of 100 give an available ACWR of 1
and bucket 20, and the all-zero database exercises the available-zero clause. -/
theorem c1_acwr_bucket_witness :
    acwrRiskOf dbConstLoads 1 6 = 20 ∧ acwrRiskOf dbZeroLoads 1 6 = 0 := by
  constructor
  · rw [(c1_acwr_bucket dbConstLoads 1 6).2.2.2.2 100 100 1 acwr_of_const_loads (by norm_num)]
    norm_num
  · exact (c1_acwr_bucket dbZeroLoads 1 6).2.2.1 0 0 acwr_of_zero_loads

/-! ## C2: the z-score baseline population -/

/-- C2 counterexample: with exactly 21 samples — the claim's "at least 21"
boundary — the source's `len(load_values) > 21` test fails, so the baseline is
the earliest `int(21*0.75) = 15` samples, not the all-but-last-7 (14) samples
the claim requires. -/
theorem c2_counterexample :
    baselineLoads loads21 = loads21.take 15 ∧
      ¬ baselineLoads loads21 = loads21.take (21 - 7) := by
  constructor
  · decide
  · decide

/-- C2 (amended): for at least 7 samples in the z-score window, the baseline
population is all-but-the-last-7 samples whenever there are *more than* 21
samples (at least 22); with 7 to 21 samples it is the earliest 75% (rounded
down) — which is then always at least 5 samples, so the fewer-than-3 fallback
to the full set never fires; and whenever the baseline standard deviation is
0, the result is `(current_z, max_z_7d) = (0, 0)`. -/
theorem c2_zscore_baseline (xs : List ℚ) (h7 : 7 ≤ xs.length) :
    (21 < xs.length → baselineLoads xs = xs.take (xs.length - 7)) ∧
    (xs.length ≤ 21 → baselineLoads xs = xs.take (xs.length * 3 / 4)) ∧
    (npStdR (baselineLoads xs) = 0 → zScoreOfLoads xs = (0, 0)) := by
  refine ⟨?_, ?_, ?_⟩
  · intro h
    rw [baselineLoads]
    simp only [if_pos h]
    rw [if_neg]
    simp only [List.length_take]
    omega
  · intro h
    rw [baselineLoads]
    simp only [if_neg (not_lt.mpr h)]
    rw [if_neg]
    simp only [List.length_take]
    omega
  · intro hstd
    rw [zScoreOfLoads]
    rw [if_neg (by omega)]
    simp only [if_pos hstd]

/-- Witness for the amended C2: 22 constant samples exercise both the
more-than-21 branch and the zero-variance early return. -/
theorem c2_zscore_baseline_witness :
    baselineLoads loads22 = loads22.take 15 ∧ zScoreOfLoads loads22 = (0, 0) := by
  have h := c2_zscore_baseline loads22 (by decide)
  have hbase : baselineLoads loads22 = loads22.take 15 := by
    have := h.1 (by decide)
    rw [this]
    norm_num [loads22]
  refine ⟨hbase, h.2.2 ?_⟩
  rw [npStdR_eq_zero_iff, hbase]
  have htake : loads22.take 15 = List.replicate 15 1 := by decide
  rw [htake]
  norm_num [npVarQ, npMeanQ, List.sum_replicate]

/-! ## C3: training monotony vs. variance -/

lemma npVarQ_loadsSpread : npVarQ loadsSpread = 4 := by
  norm_num [loadsSpread, npVarQ, npMeanQ]

lemma npVarQ_loadsFlat : npVarQ loadsFlat = 0 := by
  norm_num [loadsFlat, npVarQ, npMeanQ]

lemma npStdR_loadsSpread : npStdR loadsSpread = 2 := by
  rw [npStdR, npVarQ_loadsSpread]
  rw [show (((4 : ℚ) : ℝ)) = 2 ^ 2 by norm_num]
  exact Real.sqrt_sq (by norm_num)

lemma npStdR_loadsFlat : npStdR loadsFlat = 0 := by
  rw [npStdR_eq_zero_iff]
  exact npVarQ_loadsFlat

lemma monotony_loadsSpread : monotonyOfLoads loadsSpread = some 150 := by
  rw [monotonyOfLoads, if_neg (by norm_num [loadsSpread]),
    if_neg (by rw [npStdR_loadsSpread]; norm_num)]
  have hval : ((npMeanQ loadsSpread : ℚ) : ℝ) / npStdR loadsSpread = ((150 : ℤ) : ℝ) := by
    rw [npStdR_loadsSpread, show npMeanQ loadsSpread = 300 by norm_num [loadsSpread, npMeanQ]]
    push_cast
    norm_num
  rw [hval, round2_intCast]
  norm_num

lemma monotony_loadsFlat : monotonyOfLoads loadsFlat = some 10 := by
  rw [monotonyOfLoads, if_neg (by norm_num [loadsFlat]), if_pos npStdR_loadsFlat]

/-- C3 counterexample: two same-length sequences of equal mean 300, one with
variance 4 and monotony 150, the other with zero variance — where the source
returns the fixed sentinel 10.0. Reducing the variance to 0 here *decreases*
monotony from 150 to 10, refuting the claim's "reducing the variance all the
way to 0 never decreases monotony". -/
theorem c3_counterexample :
    loadsSpread.length = loadsFlat.length ∧
      npMeanQ loadsSpread = npMeanQ loadsFlat ∧
      npVarQ loadsFlat = 0 ∧
      monotonyOfLoads loadsSpread = some 150 ∧
      monotonyOfLoads loadsFlat = some 10 ∧
      ¬ ((150 : ℝ) ≤ 10) := by
  refine ⟨by decide, by norm_num [loadsSpread, loadsFlat, npMeanQ], npVarQ_loadsFlat,
    monotony_loadsSpread, monotony_loadsFlat, by norm_num⟩

/-- C3 (amended): among sequences of at least 3 samples with the same
nonnegative mean and *positive* standard deviations, the lower-variance
sequence's monotony is at least the other's (rounding included); and at exactly
zero standard deviation monotony is the fixed sentinel 10.0 regardless of the
mean — but that sentinel may lie *below* the positive-variance monotony, so
reducing the variance to 0 can decrease monotony. -/
theorem c3_monotony :
    (∀ xs ys : List ℚ, 3 ≤ xs.length → xs.length = ys.length →
      npMeanQ xs = npMeanQ ys → 0 ≤ npMeanQ xs →
      0 < npStdR xs → npStdR xs ≤ npStdR ys →
      ∃ a b : ℝ, monotonyOfLoads xs = some a ∧ monotonyOfLoads ys = some b ∧ b ≤ a) ∧
    (∀ xs : List ℚ, 3 ≤ xs.length → npStdR xs = 0 → monotonyOfLoads xs = some 10) := by
  constructor
  · intro xs ys h3 hlen hmean hm0 hs0 hss
    have hys0 : 0 < npStdR ys := lt_of_lt_of_le hs0 hss
    refine ⟨round2 ((npMeanQ xs : ℝ) / npStdR xs),
      round2 ((npMeanQ ys : ℝ) / npStdR ys), ?_, ?_, ?_⟩
    · rw [monotonyOfLoads, if_neg (by omega), if_neg (ne_of_gt hs0)]
    · rw [monotonyOfLoads, if_neg (by omega), if_neg (ne_of_gt hys0)]
    · apply round2_mono
      have hm : ((npMeanQ ys : ℚ) : ℝ) = ((npMeanQ xs : ℚ) : ℝ) := by
        rw [hmean]
      rw [hm]
      exact div_le_div_of_nonneg_left (by exact_mod_cast hm0) hs0 hss
  · intro xs h3 hstd
    rw [monotonyOfLoads, if_neg (by omega), if_pos hstd]

/-- Witness for the amended C3: `[3,3,5,5]` (std 1) versus `[1,1,7,7]` (std 3)
share mean 4, and the flat sequence exercises the zero-variance sentinel. -/
theorem c3_monotony_witness :
    (∃ a b : ℝ, monotonyOfLoads loadsLoVar = some a ∧
      monotonyOfLoads loadsHiVar = some b ∧ b ≤ a) ∧
      monotonyOfLoads loadsFlat = some 10 := by
  have hv1 : npVarQ loadsLoVar = 1 := by norm_num [loadsLoVar, npVarQ, npMeanQ]
  have hv9 : npVarQ loadsHiVar = 9 := by norm_num [loadsHiVar, npVarQ, npMeanQ]
  have hs1 : npStdR loadsLoVar = 1 := by
    rw [npStdR, hv1]
    push_cast
    exact Real.sqrt_one
  have hs3 : npStdR loadsHiVar = 3 := by
    rw [npStdR, hv9]
    rw [show (((9 : ℚ) : ℝ)) = 3 ^ 2 by norm_num]
    exact Real.sqrt_sq (by norm_num)
  constructor
  · exact c3_monotony.1 loadsLoVar loadsHiVar (by norm_num [loadsLoVar])
      (by decide)
      (by norm_num [loadsLoVar, loadsHiVar, npMeanQ])
      (by norm_num [loadsLoVar, npMeanQ])
      (by rw [hs1]; norm_num)
      (by rw [hs1, hs3]; norm_num)
  · exact c3_monotony.2 loadsFlat (by norm_num [loadsFlat]) npStdR_loadsFlat

/-! ## C9: recovery score with no treatments -/

/-- C9: with zero treatment records in the 14-day recovery lookback window,
`calculate_recovery_score` returns exactly 0 (`treatments_per_week = 0` gives
frequency sub-score `min(100, 0*50) = 0` and no severity penalty), so absent
treatment data contributes the full `(100 - 0) * 0.15 = 15` points to
`base_risk` instead of a neutral value. -/
theorem c9_recovery_zero (db : DB) (aid d : ℤ)
    (h : treatmentsFor db aid (d - 14) d = []) :
    calculateRecoveryScore db aid d = 0 ∧
      (100 - (calculateRecoveryScore db aid d : ℝ)) * (15 / 100) = 15 := by
  have h0 : calculateRecoveryScore db aid d = 0 := by
    rw [calculateRecoveryScore, h]
    norm_num [recoveryOfTreatments]
  refine ⟨h0, by rw [h0]; norm_num⟩

/-- Witness for C9: the empty database has no treatments in any window. -/
theorem c9_recovery_zero_witness :
    calculateRecoveryScore emptyDB 1 0 = 0 ∧
      (100 - (calculateRecoveryScore emptyDB 1 0 : ℝ)) * (15 / 100) = 15 :=
  c9_recovery_zero emptyDB 1 0 rfl

/-! ## C10: a zero-valued lifestyle field is treated as absent -/

/-- C10: a lifestyle field recorded as exactly 0 is treated as absent — with a
single log in the window whose only field is `sleep_hours = 0`, the log
contributes no sub-score and no factor, so the lifestyle score is the neutral
50, and the zero hours are excluded from the sleep-modifier average, so the
modifier is 1.0 rather than the `< 6` hours value 1.4. -/
theorem c10_zero_sleep_absent (db : DB) (aid d : ℤ) (log : LifestyleLog)
    (hscore : lifestyleFor db aid (d - 7) d = [log])
    (hmod : lifestyleFor db aid (d - 6) d = [log])
    (hsleep : log.sleep_hours = some 0)
    (hq : log.sleep_quality = none) (hn : log.nutrition_score = none)
    (hst : log.stress_level = none) :
    calculateLifestyleScore db aid d = 50 ∧ calculateSleepModifier db aid d = 1 := by
  constructor
  · rw [calculateLifestyleScore, hscore]
    simp [lifestyleOfLogs, perLogScore, hsleep, hq, hn, hst]
  · rw [calculateSleepModifier, hmod]
    simp [sleepModOfLogs, hsleep]

/-- Witness for C10 on a concrete database. -/
theorem c10_zero_sleep_absent_witness :
    calculateLifestyleScore dbZeroSleep 1 0 = 50 ∧ calculateSleepModifier dbZeroSleep 1 0 = 1 :=
  c10_zero_sleep_absent dbZeroSleep 1 0 ⟨1, 0, some 0, none, none, none⟩
    rfl rfl rfl rfl rfl rfl

/-! ## Bounds on the composed risk components (toward C4 and C5) -/

lemma spikeOfLoads_nonneg (xs : List ℚ) : 0 ≤ spikeOfLoads xs := by
  simp only [spikeOfLoads]
  split_ifs with h1 h2
  · norm_num
  · norm_num
  · apply le_min (by norm_num)
    have havg : 0 ≤ npMeanQ (pctChanges xs) := npMeanQ_nonneg (pctChanges_nonneg xs)
    have hmax : 0 ≤ listMaxD (pctChanges xs) 0 := listMaxD_nonneg (pctChanges_nonneg xs)
    have hcnt : (0 : ℚ) ≤ (((pctChanges xs).filter (fun c => decide (30 < c))).length : ℚ) := by
      positivity
    linarith

lemma freq_minus_penalty_bounds (p s : ℚ) (hs : 0 ≤ s) :
    0 ≤ max 0 ((if 2 ≤ p ∧ p ≤ 4 then (100 : ℚ)
        else if p < 2 then min 100 (p * 50)
        else max 0 (100 - (p - 4) * 10)) - min 40 (s * 10)) ∧
      max 0 ((if 2 ≤ p ∧ p ≤ 4 then (100 : ℚ)
        else if p < 2 then min 100 (p * 50)
        else max 0 (100 - (p - 4) * 10)) - min 40 (s * 10)) ≤ 100 := by
  have hpen : 0 ≤ min 40 (s * 10) := le_min (by norm_num) (by linarith)
  refine ⟨le_max_left 0 _, ?_⟩
  apply max_le (by norm_num)
  have hfreq : (if 2 ≤ p ∧ p ≤ 4 then (100 : ℚ)
      else if p < 2 then min 100 (p * 50)
      else max 0 (100 - (p - 4) * 10)) ≤ 100 := by
    split_ifs with h1 h2
    · exact le_refl 100
    · exact min_le_left _ _
    · apply max_le (by norm_num)
      have : 4 < p := by
        rcases not_and_or.mp h1 with h | h
        · exact absurd (le_of_not_lt h2) (by intro hc; exact h (by linarith))
        · exact lt_of_not_le h
      linarith
  linarith

lemma recoveryOfTreatments_bounds (ts : List Treatment) :
    0 ≤ recoveryOfTreatments ts ∧ recoveryOfTreatments ts ≤ 100 := by
  unfold recoveryOfTreatments
  exact freq_minus_penalty_bounds _ _ (by positivity)

lemma injurySeverityMult_one_le (s : String) : 1 ≤ injurySeverityMult s := by
  unfold injurySeverityMult
  split_ifs <;> norm_num

lemma injuryHistoryOfInjuries_nonneg (d : ℤ) (is : List InjuryRecord) :
    0 ≤ injuryHistoryOfInjuries d is := by
  unfold injuryHistoryOfInjuries
  split_ifs with h
  · exact le_refl 0
  · apply le_min (by norm_num)
    apply list_sum_nonneg
    intro y hy
    rcases List.mem_map.mp hy with ⟨i, -, rfl⟩
    have hrec : (3 / 10 : ℚ) ≤ max (3 / 10) (1 - ((d - i.injury_date : ℤ) : ℚ) / 180) :=
      le_max_left _ _
    have hmul := injurySeverityMult_one_le i.severity
    positivity

lemma injuryHistoryOfInjuries_le (d : ℤ) (is : List InjuryRecord) :
    injuryHistoryOfInjuries d is ≤ 100 := by
  unfold injuryHistoryOfInjuries
  split_ifs with h
  · norm_num
  · exact min_le_left _ _

lemma acwrRiskBucket_nonneg (o : Option ℚ) : 0 ≤ acwrRiskBucket o := by
  cases o with
  | none => simp [acwrRiskBucket]
  | some a =>
      simp only [acwrRiskBucket]
      split_ifs <;> norm_num

lemma monotonyRiskBucket_nonneg (o : Option ℝ) : 0 ≤ monotonyRiskBucket o := by
  cases o with
  | none => simp [monotonyRiskBucket]
  | some m =>
      simp only [monotonyRiskBucket]
      split_ifs <;> norm_num

lemma zRiskBucket_nonneg (z : ℝ) : 0 ≤ zRiskBucket z := by
  unfold zRiskBucket
  split_ifs <;> norm_num

lemma perLogStep_sleep (p : ℚ × ℕ) (o : Option ℚ) (k : ℚ) (hp0 : 0 ≤ p.1) (hpk : p.1 ≤ k) :
    0 ≤ (match o with
        | some v =>
            if v ≠ 0 then
              (p.1 + (if 7 ≤ v ∧ v ≤ 9 then (25 : ℚ) else if 6 ≤ v ∧ v ≤ 10 then 15 else 5),
                p.2 + 1)
            else p
        | none => p).1 ∧
      (match o with
        | some v =>
            if v ≠ 0 then
              (p.1 + (if 7 ≤ v ∧ v ≤ 9 then (25 : ℚ) else if 6 ≤ v ∧ v ≤ 10 then 15 else 5),
                p.2 + 1)
            else p
        | none => p).1 ≤ k + 25 := by
  cases o with
  | none => exact ⟨hp0, by linarith⟩
  | some v =>
      show 0 ≤ (if v ≠ 0 then
            (p.1 + (if 7 ≤ v ∧ v ≤ 9 then (25 : ℚ) else if 6 ≤ v ∧ v ≤ 10 then 15 else 5),
              p.2 + 1)
          else p).1 ∧
        (if v ≠ 0 then
            (p.1 + (if 7 ≤ v ∧ v ≤ 9 then (25 : ℚ) else if 6 ≤ v ∧ v ≤ 10 then 15 else 5),
              p.2 + 1)
          else p).1 ≤ k + 25
      split_ifs <;> constructor <;> (try simp) <;> linarith

lemma perLogStep_scale (p : ℚ × ℕ) (o : Option ℚ) (k : ℚ)
    (ho : ∀ v, o = some v → 1 ≤ v ∧ v ≤ 10)
    (hp0 : 0 ≤ p.1) (hpk : p.1 ≤ k) :
    0 ≤ (match o with
        | some v => if v ≠ 0 then (p.1 + v * (5 / 2), p.2 + 1) else p
        | none => p).1 ∧
      (match o with
        | some v => if v ≠ 0 then (p.1 + v * (5 / 2), p.2 + 1) else p
        | none => p).1 ≤ k + 25 := by
  cases o with
  | none => exact ⟨hp0, by linarith⟩
  | some v =>
      obtain ⟨h1, h2⟩ := ho v rfl
      show 0 ≤ (if v ≠ 0 then (p.1 + v * (5 / 2), p.2 + 1) else p).1 ∧
        (if v ≠ 0 then (p.1 + v * (5 / 2), p.2 + 1) else p).1 ≤ k + 25
      split_ifs <;> constructor <;> (try simp) <;> linarith

lemma perLogStep_stress (p : ℚ × ℕ) (o : Option ℚ) (k : ℚ)
    (ho : ∀ v, o = some v → 1 ≤ v ∧ v ≤ 10)
    (hp0 : 0 ≤ p.1) (hpk : p.1 ≤ k) :
    0 ≤ (match o with
        | some v => if v ≠ 0 then (p.1 + (10 - v + 1) * (5 / 2), p.2 + 1) else p
        | none => p).1 ∧
      (match o with
        | some v => if v ≠ 0 then (p.1 + (10 - v + 1) * (5 / 2), p.2 + 1) else p
        | none => p).1 ≤ k + 25 := by
  cases o with
  | none => exact ⟨hp0, by linarith⟩
  | some v =>
      obtain ⟨h1, h2⟩ := ho v rfl
      show 0 ≤ (if v ≠ 0 then (p.1 + (10 - v + 1) * (5 / 2), p.2 + 1) else p).1 ∧
        (if v ≠ 0 then (p.1 + (10 - v + 1) * (5 / 2), p.2 + 1) else p).1 ≤ k + 25
      split_ifs <;> constructor <;> (try simp) <;> linarith

lemma perLogScore_bounds (log : LifestyleLog)
    (hq : ∀ v, log.sleep_quality = some v → 1 ≤ v ∧ v ≤ 10)
    (hn : ∀ v, log.nutrition_score = some v → 1 ≤ v ∧ v ≤ 10)
    (hst : ∀ v, log.stress_level = some v → 1 ≤ v ∧ v ≤ 10) :
    0 ≤ (perLogScore log).1 ∧ (perLogScore log).1 ≤ 100 := by
  have h1 := perLogStep_sleep (0, 0) log.sleep_hours 0 (by norm_num) (by norm_num)
  have h2 := perLogStep_scale _ log.sleep_quality 25 hq h1.1 (le_trans h1.2 (by norm_num))
  have h3 := perLogStep_scale _ log.nutrition_score 50 hn h2.1 (le_trans h2.2 (by norm_num))
  have h4 := perLogStep_stress _ log.stress_level 75 hst h3.1 (le_trans h3.2 (by norm_num))
  exact ⟨h4.1, le_trans h4.2 (by norm_num)⟩

lemma lifestyleOfLogs_bounds (logs : List LifestyleLog)
    (h : ∀ log ∈ logs,
      (∀ v, log.sleep_quality = some v → 1 ≤ v ∧ v ≤ 10) ∧
      (∀ v, log.nutrition_score = some v → 1 ≤ v ∧ v ≤ 10) ∧
      (∀ v, log.stress_level = some v → 1 ≤ v ∧ v ≤ 10)) :
    0 ≤ lifestyleOfLogs logs ∧ lifestyleOfLogs logs ≤ 100 := by
  simp only [lifestyleOfLogs]
  split_ifs with h1 h2
  · norm_num
  · norm_num
  · have hmem : ∀ s ∈ logs.filterMap (fun log =>
        if 0 < (perLogScore log).2 then some (perLogScore log).1 else none),
        0 ≤ s ∧ s ≤ 100 := by
      intro s hs
      rcases List.mem_filterMap.mp hs with ⟨log, hlog, heq⟩
      obtain ⟨hhq, hhn, hhs⟩ := h log hlog
      by_cases hf : 0 < (perLogScore log).2
      · rw [if_pos hf, Option.some_inj] at heq
        rw [← heq]
        exact perLogScore_bounds log hhq hhn hhs
      · rw [if_neg hf] at heq
        exact absurd heq (by simp)
    exact ⟨npMeanQ_nonneg (fun x hx => (hmem x hx).1),
      npMeanQ_le h2 (fun x hx => (hmem x hx).2)⟩

lemma sleepModOfLogs_one_le (logs : List LifestyleLog) : 1 ≤ sleepModOfLogs logs := by
  simp only [sleepModOfLogs]
  split_ifs <;> norm_num

lemma stressModOfLogs_one_le (logs : List LifestyleLog) : 1 ≤ stressModOfLogs logs := by
  simp only [stressModOfLogs]
  split_ifs <;> norm_num

lemma injuryRecencyModifier_one_le (db : DB) (aid d : ℤ) :
    1 ≤ calculateInjuryRecencyModifier db aid d := by
  simp only [calculateInjuryRecencyModifier]
  cases injuriesFor db aid (d - 90) d with
  | nil => norm_num
  | cons i0 rest =>
      simp only
      split_ifs <;> norm_num

lemma ageModifier_one_le (o : Option ℤ) : 1 ≤ calculateAgeModifier o := by
  cases o with
  | none => simp [calculateAgeModifier]
  | some a =>
      simp only [calculateAgeModifier]
      split_ifs <;> norm_num

lemma compoundOf_one_le (db : DB) (aid d : ℤ) : 1 ≤ compoundOf db aid d := by
  have h1 := sleepModOfLogs_one_le (lifestyleFor db aid (d - 6) d)
  have h2 := stressModOfLogs_one_le (lifestyleFor db aid (d - 6) d)
  have h3 := injuryRecencyModifier_one_le db aid d
  have h4 := ageModifier_one_le (athleteAgeOf db aid)
  have h12 : 1 ≤ sleepModOfLogs (lifestyleFor db aid (d - 6) d) *
      stressModOfLogs (lifestyleFor db aid (d - 6) d) := by nlinarith
  have h123 : 1 ≤ sleepModOfLogs (lifestyleFor db aid (d - 6) d) *
      stressModOfLogs (lifestyleFor db aid (d - 6) d) *
      calculateInjuryRecencyModifier db aid d := by nlinarith
  unfold compoundOf calculateSleepModifier calculateStressModifier
  nlinarith [h123, h4]

lemma baseRiskOf_nonneg (db : DB) (aid d : ℤ)
    (hlife : calculateLifestyleScore db aid d ≤ 100) : 0 ≤ baseRiskOf db aid d := by
  unfold baseRiskOf
  have ha : (0 : ℝ) ≤ (acwrRiskOf db aid d : ℚ) := by
    exact_mod_cast acwrRiskBucket_nonneg (acwrValueOf db aid d)
  have hb : (0 : ℝ) ≤ monotonyRiskOf db aid d :=
    monotonyRiskBucket_nonneg (calculateTrainingMonotony db aid d)
  have hc : (0 : ℝ) ≤ zRiskOf db aid d := zRiskBucket_nonneg _
  have hs : (0 : ℝ) ≤ (calculateLoadSpikeScore db aid d : ℚ) := by
    exact_mod_cast spikeOfLoads_nonneg (loadsFor db aid (d - 14) d)
  have hr : ((calculateRecoveryScore db aid d : ℚ) : ℝ) ≤ 100 := by
    exact_mod_cast (recoveryOfTreatments_bounds (treatmentsFor db aid (d - 14) d)).2
  have hl : ((calculateLifestyleScore db aid d : ℚ) : ℝ) ≤ 100 := by exact_mod_cast hlife
  have hi : (0 : ℝ) ≤ (calculateInjuryHistoryScore db aid d : ℚ) := by
    exact_mod_cast injuryHistoryOfInjuries_nonneg d (injuriesFor db aid (d - 180) d)
  linarith

/-- C4: with lifestyle fields in the documented 1–10 ranges, the returned
`overall_risk_score` lies in `[0, 100]` and the returned `compound_multiplier`
is at least 1.0, each of the four modifiers individually being at least 1.0. -/
theorem c4_overall_risk_bounds (db : DB) (aid d : ℤ)
    (h : ∀ log ∈ db.lifestyle_logs,
      (∀ v, log.sleep_quality = some v → 1 ≤ v ∧ v ≤ 10) ∧
      (∀ v, log.nutrition_score = some v → 1 ≤ v ∧ v ≤ 10) ∧
      (∀ v, log.stress_level = some v → 1 ≤ v ∧ v ≤ 10)) :
    0 ≤ (calculateOverallRisk db aid d).overall_risk_score ∧
      (calculateOverallRisk db aid d).overall_risk_score ≤ 100 ∧
      1 ≤ (calculateOverallRisk db aid d).compound_multiplier ∧
      1 ≤ calculateSleepModifier db aid d ∧
      1 ≤ calculateStressModifier db aid d ∧
      1 ≤ calculateInjuryRecencyModifier db aid d ∧
      1 ≤ calculateAgeModifier (athleteAgeOf db aid) := by
  have hlife : calculateLifestyleScore db aid d ≤ 100 := by
    refine (lifestyleOfLogs_bounds (lifestyleFor db aid (d - 7) d) ?_).2
    intro log hlog
    exact h log (List.mem_filter.mp hlog).1
  have hbase := baseRiskOf_nonneg db aid d hlife
  have hcomp := compoundOf_one_le db aid d
  have hcompR : (1 : ℝ) ≤ ((compoundOf db aid d : ℚ) : ℝ) := by exact_mod_cast hcomp
  have hlow : 0 ≤ overallRiskValue db aid d := by
    unfold overallRiskValue
    exact le_min (by norm_num) (mul_nonneg hbase (le_trans zero_le_one hcompR))
  have hhigh : overallRiskValue db aid d ≤ 100 := min_le_left _ _
  have h0 : round2 0 = 0 := by
    rw [show (0 : ℝ) = ((0 : ℤ) : ℝ) by norm_num, round2_intCast]
  have h100 : round2 100 = 100 := by
    rw [show (100 : ℝ) = ((100 : ℤ) : ℝ) by norm_num, round2_intCast]
  have h1 : round2 1 = 1 := by
    rw [show (1 : ℝ) = ((1 : ℤ) : ℝ) by norm_num, round2_intCast]
  simp only [calculateOverallRisk]
  refine ⟨?_, ?_, ?_, sleepModOfLogs_one_le _, stressModOfLogs_one_le _,
    injuryRecencyModifier_one_le db aid d, ageModifier_one_le _⟩
  · rw [← h0]
    exact round2_mono hlow
  · rw [← h100]
    exact round2_mono hhigh
  · rw [← h1]
    exact round2_mono hcompR

/-- Witness for C4: the empty database satisfies the range hypothesis vacuously. -/
theorem c4_overall_risk_bounds_witness :
    0 ≤ (calculateOverallRisk emptyDB 1 0).overall_risk_score ∧
      (calculateOverallRisk emptyDB 1 0).overall_risk_score ≤ 100 ∧
      1 ≤ (calculateOverallRisk emptyDB 1 0).compound_multiplier ∧
      1 ≤ calculateSleepModifier emptyDB 1 0 ∧
      1 ≤ calculateStressModifier emptyDB 1 0 ∧
      1 ≤ calculateInjuryRecencyModifier emptyDB 1 0 ∧
      1 ≤ calculateAgeModifier (athleteAgeOf emptyDB 1) :=
  c4_overall_risk_bounds emptyDB 1 0
    (by intro log hlog; exact absurd hlog (List.not_mem_nil _))

/-! ## C5: graceful degradation with missing data -/

lemma treatmentsFor_empty (aid s e : ℤ) : treatmentsFor emptyDB aid s e = [] := rfl

lemma lifestyleFor_empty (aid s e : ℤ) : lifestyleFor emptyDB aid s e = [] := rfl

lemma acwrRiskOf_empty (aid d : ℤ) : acwrRiskOf emptyDB aid d = 0 := rfl

lemma monotonyRiskOf_empty (aid d : ℤ) : monotonyRiskOf emptyDB aid d = 0 := rfl

lemma zSpike_empty (aid d : ℤ) : calculateZScoreSpike emptyDB aid d = (0, 0) := rfl

lemma spike_empty (aid d : ℤ) : calculateLoadSpikeScore emptyDB aid d = 0 := rfl

lemma recovery_empty (aid d : ℤ) : calculateRecoveryScore emptyDB aid d = 0 := by
  rw [calculateRecoveryScore, treatmentsFor_empty]
  norm_num [recoveryOfTreatments]

lemma lifestyle_empty (aid d : ℤ) : calculateLifestyleScore emptyDB aid d = 50 := by
  rw [calculateLifestyleScore, lifestyleFor_empty]
  simp [lifestyleOfLogs]

lemma injuryScore_empty (aid d : ℤ) : calculateInjuryHistoryScore emptyDB aid d = 0 := by
  simp [calculateInjuryHistoryScore, injuriesFor, emptyDB, injuryHistoryOfInjuries]

lemma zRiskOf_empty (aid d : ℤ) : zRiskOf emptyDB aid d = 10 := by
  rw [zRiskOf, zSpike_empty]
  unfold zRiskBucket
  rw [if_neg (by norm_num), if_neg (by norm_num), if_neg (by norm_num)]

lemma sleepMod_empty (aid d : ℤ) : calculateSleepModifier emptyDB aid d = 1 := by
  rw [calculateSleepModifier, lifestyleFor_empty]
  simp [sleepModOfLogs]

lemma stressMod_empty (aid d : ℤ) : calculateStressModifier emptyDB aid d = 1 := by
  rw [calculateStressModifier, lifestyleFor_empty]
  simp [stressModOfLogs]

lemma recencyMod_empty (aid d : ℤ) : calculateInjuryRecencyModifier emptyDB aid d = 1 := rfl

lemma ageMod_empty (aid : ℤ) : calculateAgeModifier (athleteAgeOf emptyDB aid) = 1 := rfl

lemma baseRisk_empty (aid d : ℤ) : baseRiskOf emptyDB aid d = 43 / 2 := by
  unfold baseRiskOf
  rw [acwrRiskOf_empty, monotonyRiskOf_empty, zRiskOf_empty, spike_empty, recovery_empty,
    lifestyle_empty, injuryScore_empty]
  push_cast
  norm_num

lemma compound_empty (aid d : ℤ) : compoundOf emptyDB aid d = 1 := by
  unfold compoundOf
  rw [sleepMod_empty, stressMod_empty, recencyMod_empty, ageMod_empty]
  norm_num

lemma overallValue_empty (aid d : ℤ) : overallRiskValue emptyDB aid d = 43 / 2 := by
  unfold overallRiskValue
  rw [baseRisk_empty, compound_empty]
  push_cast
  rw [mul_one]
  exact min_eq_right (by norm_num)

/-- C5: an individual metric with insufficient samples enters the composition
as absent/zero-weighted — the ACWR and monotony buckets are 0 and the spike
score is 0 — never raising; and with no data at all the composed result has
`risk_level = "low"` (overall score 21.5 = 43/2). -/
theorem c5_graceful_degradation :
    (∀ (db : DB) (aid d : ℤ), (loadsFor db aid (d - 27) d).length < 7 →
      acwrRiskOf db aid d = 0) ∧
    (∀ (db : DB) (aid d : ℤ), (loadsFor db aid (d - 6) d).length < 3 →
      monotonyRiskOf db aid d = 0) ∧
    (∀ (db : DB) (aid d : ℤ), (loadsFor db aid (d - 14) d).length < 3 →
      calculateLoadSpikeScore db aid d = 0) ∧
    (∀ aid d : ℤ, (calculateOverallRisk emptyDB aid d).risk_level = "low" ∧
      (calculateOverallRisk emptyDB aid d).overall_risk_score = 43 / 2) := by
  refine ⟨?_, ?_, ?_, ?_⟩
  · intro db aid d h
    rw [acwrRiskOf, acwrValueOf, calculateAcwr, acwrOfLoads, if_pos h]
    simp [acwrRiskBucket]
  · intro db aid d h
    rw [monotonyRiskOf, calculateTrainingMonotony, monotonyOfLoads, if_pos h]
    simp [monotonyRiskBucket]
  · intro db aid d h
    rw [calculateLoadSpikeScore, spikeOfLoads, if_pos h]
  · intro aid d
    constructor
    · simp only [calculateOverallRisk]
      rw [overallValue_empty]
      unfold classifyRisk
      rw [if_neg (by norm_num), if_neg (by norm_num)]
    · simp only [calculateOverallRisk]
      rw [overallValue_empty]
      rw [show (43 / 2 : ℝ) = ((2150 : ℤ) : ℝ) / 100 by norm_num, round2_div100]

/-- Witness for C5 at concrete inputs: the empty database has too few samples
for every load metric and composes to the "low" risk level. -/
theorem c5_graceful_degradation_witness :
    acwrRiskOf emptyDB 1 0 = 0 ∧ monotonyRiskOf emptyDB 1 0 = 0 ∧
      calculateLoadSpikeScore emptyDB 1 0 = 0 ∧
      (calculateOverallRisk emptyDB 1 0).risk_level = "low" := by
  refine ⟨c5_graceful_degradation.1 emptyDB 1 0 (by decide),
    c5_graceful_degradation.2.1 emptyDB 1 0 (by decide),
    c5_graceful_degradation.2.2.1 emptyDB 1 0 (by decide),
    (c5_graceful_degradation.2.2.2 1 0).1⟩
